import Mathlib

/-!
Shallow embedding of the `WeatherPredictor` component of
`xgb_shap_parted_model.ipynb` (prepare_data / predict / calculate_global_shap)
together with the pandas, scipy and numpy operations those methods call.

Conventions of the embedding:
* a pandas `DataFrame` is an ordered association list of named, dtype-tagged
  columns; row operations act pointwise on every column;
* float64 cells are modelled by exact rationals; the real-valued column
  produced by the FFT is modelled over the reals;
* Python exceptions become an explicit `PyError` result
  (`KeyError` carries the list of missing labels its message prints);
* the XGBoost model and the SHAP explainer are opaque deterministic
  functions supplied by a `Backend` parameter - the pipeline code under
  verification never looks inside them.
-/

namespace WeatherShap

/-- Data of one pandas column, tagged by dtype.  `float` models float64
columns with exact rationals, `int` models int64 columns, `realv` models the
derived real-valued column holding FFT magnitudes, `obj` models string/object
columns, `datetime` models datetime64 columns by integer timestamps, and
`cat` wraps a column converted by `astype` to the pandas categorical dtype. -/
inductive ColData where
  | float (vals : List ℚ)
  | int (vals : List Int)
  | realv (vals : List ℝ)
  | obj (vals : List String)
  | datetime (vals : List Int)
  | cat (base : ColData)

/-- Number of cells in a column. -/
def ColData.length : ColData → Nat
  | .float v => v.length
  | .int v => v.length
  | .realv v => v.length
  | .obj v => v.length
  | .datetime v => v.length
  | .cat b => b.length

/-- Drop the first cell of a column (one column of `df.iloc[1:]`). -/
def ColData.tail : ColData → ColData
  | .float v => .float v.tail
  | .int v => .int v.tail
  | .realv v => .realv v.tail
  | .obj v => .obj v.tail
  | .datetime v => .datetime v.tail
  | .cat b => .cat b.tail

/-- The numeric content of a column, as real numbers, when
`pd.api.types.is_numeric_dtype` holds for it (float64, int64 or the derived
real column); `none` for object, datetime and categorical dtypes, for which
`is_numeric_dtype` is false. -/
def ColData.numericVals : ColData → Option (List ℝ)
  | .float v => some (v.map (fun q => (Rat.cast q : ℝ)))
  | .int v => some (v.map (fun i => (Int.cast i : ℝ)))
  | .realv v => some v
  | .obj _ => none
  | .datetime _ => none
  | .cat _ => none

/-- `astype` to the pandas categorical dtype (idempotent on an already
categorical column). -/
def ColData.toCategory : ColData → ColData
  | .cat b => .cat b
  | .float v => .cat (.float v)
  | .int v => .cat (.int v)
  | .realv v => .cat (.realv v)
  | .obj v => .cat (.obj v)
  | .datetime v => .cat (.datetime v)

/-- Whether a column has the pandas categorical dtype. -/
def ColData.isCategorical : ColData → Bool
  | .cat _ => true
  | _ => false

/-- A pandas DataFrame: an ordered association list of named columns.
Rows are positional: row `i` consists of cell `i` of every column. -/
structure DataFrame where
  cols : List (String × ColData)

/-- Column lookup in an association list (first match). -/
def lookupCol : List (String × ColData) → String → Option ColData
  | [], _ => none
  | c :: rest, n => if c.1 = n then some c.2 else lookupCol rest n

/-- `df[n]` as an `Option` (used with an explicit `KeyError` at call sites). -/
def DataFrame.get (df : DataFrame) (n : String) : Option ColData :=
  lookupCol df.cols n

/-- `n in df.columns`. -/
def DataFrame.hasCol (df : DataFrame) (n : String) : Bool :=
  (df.get n).isSome

/-- `df.columns`, in order. -/
def DataFrame.colNames (df : DataFrame) : List String :=
  df.cols.map Prod.fst

/-- `len(df)`: the length of the first column (every well-formed frame is
rectangular, see `DataFrame.Rect`). -/
def DataFrame.nrows (df : DataFrame) : Nat :=
  match df.cols with
  | [] => 0
  | c :: _ => c.2.length

/-- A frame is rectangular: all columns have the same number of cells. -/
def DataFrame.Rect (df : DataFrame) : Prop :=
  ∀ c ∈ df.cols, c.2.length = df.nrows

instance (df : DataFrame) : Decidable df.Rect :=
  List.decidableBAll _ _

/-- `df[n] = v` on an association list: replace the column in place when the
name is present, append a new column at the end otherwise (pandas column
assignment). -/
def setColList : List (String × ColData) → String → ColData → List (String × ColData)
  | [], n, v => [(n, v)]
  | c :: rest, n, v => if c.1 = n then (n, v) :: rest else c :: setColList rest n v

/-- `df[n] = v` (pandas column assignment). -/
def DataFrame.setCol (df : DataFrame) (n : String) (v : ColData) : DataFrame :=
  ⟨setColList df.cols n v⟩

/-- `df.iloc[1:]`: drop the first row of every column. -/
def DataFrame.dropFirstRow (df : DataFrame) : DataFrame :=
  ⟨df.cols.map (fun c => (c.1, c.2.tail))⟩

/-- Python exceptions surfaced by the pipeline.  `keyError` carries the
list of missing labels that the corresponding `KeyError` message prints;
`valueError` carries the `ValueError` message (quotes elided). -/
inductive PyError where
  | keyError (missing : List String)
  | valueError (msg : String)
deriving DecidableEq

/-- `df.drop(columns=names)`: raises `KeyError` listing the labels not found
in the frame, otherwise removes the named columns, preserving the order of
the remaining ones. -/
def DataFrame.dropColumns (df : DataFrame) (names : List String) : Except PyError DataFrame :=
  match names.filter (fun n => !(df.hasCol n)) with
  | [] => .ok ⟨df.cols.filter (fun c => !(names.contains c.1))⟩
  | missing => .error (.keyError missing)

/-- `df[[names]]` column selection: raises `KeyError` listing the labels not
in the frame, otherwise returns the named columns in the requested order. -/
def DataFrame.selectCols (df : DataFrame) (names : List String) : Except PyError DataFrame :=
  match names.filter (fun n => !(df.hasCol n)) with
  | [] => .ok ⟨names.filterMap (fun n => (df.get n).map (fun c => (n, c)))⟩
  | missing => .error (.keyError missing)

/-- Bin `k` of the discrete Fourier transform computed by `scipy.fft.fft`
(documented convention `X_k = sum_j x_j * exp(-2*pi*I*j*k/N)`, no
normalization). -/
noncomputable def dftCoeff (x : List ℝ) (k : Nat) : ℂ :=
  ∑ j ∈ Finset.range x.length,
    ((x.getD j 0 : ℝ) : ℂ) *
      Complex.exp (-(2 * (Real.pi : ℂ) * Complex.I * (k : ℂ) * (j : ℂ)) / (x.length : ℂ))

/-- `scipy.fft.fft`: the list of all `N` DFT bins of a length-`N` signal,
in bin order. -/
noncomputable def dft (x : List ℝ) : List ℂ :=
  (List.range x.length).map (dftCoeff x)

/-- The `required_columns` set of `prepare_data`. -/
def requiredColumns : List String := ["TEMP", "HOUR_OF_DAY"]

/-- `WeatherPredictor.prepare_data`.  Mirrors the source line by line:
validate that `TEMP` and `HOUR_OF_DAY` are present (`KeyError` listing the
missing ones otherwise), require `TEMP` to have a numeric dtype
(`ValueError` otherwise), run `scipy.fft.fft` over the full `TEMP` column
(scipy raises `ValueError` on an empty signal), rebind `input` to
`input.copy()` and then to `input.iloc[1:].copy()`, and attach the `TEMP_FFT`
column holding `np.abs(fft_values[1:])`.  The result pairs the frame the
method returns with the caller-owned argument frame after the call: the two
`copy()` calls mean every write hits a fresh frame, so the second component
is the argument unchanged. -/
noncomputable def prepare_data (input : DataFrame) :
    Except PyError (DataFrame × DataFrame) :=
  if requiredColumns.filter (fun c => !(input.hasCol c)) = [] then
    match input.get "TEMP" with
    | none => .error (.keyError ["TEMP"])
    | some tcol =>
      match tcol.numericVals with
      | none => .error (.valueError "TEMP column must be numeric.")
      | some temps =>
        if temps.length = 0 then
          .error (.valueError "invalid number of data points (0) specified")
        else
          .ok ((input.dropFirstRow).setCol "TEMP_FFT"
                (.realv (((dft temps).drop 1).map Complex.abs)), input)
  else
    .error (.keyError (requiredColumns.filter (fun c => !(input.hasCol c))))

/-- The deterministic external collaborators of the pipeline: `fit` stands
for `xgb.XGBRegressor(...).fit` (returning the fitted model), `predictFn`
for `xgb_model.predict`, and `shapValues` for
`shap.Explainer(xgb_model)(X).values`, a per-row list of per-feature
attribution values.  TreeSHAP and XGBoost training in this configuration are
deterministic functions of their arguments, which is all the pipeline
depends on. -/
structure Backend (M : Type) where
  fit : DataFrame → ColData → M
  predictFn : M → DataFrame → List ℚ
  shapValues : M → DataFrame → List (List ℚ)

/-- The orchestrator state: `self.xgb_model` and `self.X` are either both
absent (fresh instance, `hasattr` false) or both set by a successful
`predict` (modelled jointly, as the source always assigns them together). -/
structure WPState (M : Type) where
  trained : Option (M × DataFrame)

/-- The error `calculate_global_shap` raises when `hasattr(self, ...)`
fails (quotes elided from the message). -/
def notTrainedError : PyError :=
  .valueError "Model not trained. Run predict first."

/-- `prepared[n]` as a single-column read: raises `KeyError` naming the
label when it is absent (the `y = prepared_data['TEMP']` line). -/
def getCol (df : DataFrame) (n : String) : Except PyError ColData :=
  match df.get n with
  | some c => .ok c
  | none => .error (.keyError [n])

/-- The guarded conversion
`if 'LOCATION' in X.columns: X['LOCATION'] = X['LOCATION'].astype('category')`. -/
def categorizeLocation (X0 : DataFrame) : DataFrame :=
  match X0.get "LOCATION" with
  | some c => X0.setCol "LOCATION" c.toCategory
  | none => X0

/-- The column list of the final `prepared_data[[...]]` selection in
`predict`. -/
def outputColumns : List String :=
  ["DATE", "LOCATION", "HOUR_OF_DAY", "TEMP", "PREDICTED_TEMP"]

/-- Sequencing of one raising statement located before the model-retention
assignments of `predict`: if the statement raises, the method aborts with
`self` unchanged (first component `st`); otherwise the rest of the body
runs. -/
def stepSt (st : WPState M) (x : Except PyError α)
    (f : α → WPState M × Except PyError β) : WPState M × Except PyError β :=
  match x with
  | .error e => (st, .error e)
  | .ok a => f a

/-- `WeatherPredictor.predict`.  Mirrors the source statement by statement;
the result pairs the orchestrator state after the call with the returned
frame or the raised exception.  Prepare the data, build `X` by dropping the
`TEMP` and `DATE` columns (pandas `drop` raises `KeyError` on a missing
label), take `y = prepared['TEMP']`, convert `LOCATION` to the categorical
dtype when present, fit the model, and attach the `PREDICTED_TEMP` column
(`xgb_model.predict(X)` evaluated once, as in the source) - a failure in
any of these leaves `self` unchanged.  Then the source executes
`self.xgb_model = xgb_model; self.X = X` *before* the final five-column
selection: the state is replaced by the fitted model and the exact feature
matrix even when that selection raises its `KeyError`, so both outcomes of
the last statement carry the new state. -/
noncomputable def predict (b : Backend M) (st : WPState M) (input : DataFrame) :
    WPState M × Except PyError DataFrame :=
  stepSt st (prepare_data input) (fun pr =>
    stepSt st (pr.1.dropColumns ["TEMP", "DATE"]) (fun X0 =>
      stepSt st (getCol pr.1 "TEMP") (fun y =>
        (⟨some (b.fit (categorizeLocation X0) y, categorizeLocation X0)⟩,
         (pr.1.setCol "PREDICTED_TEMP"
            (.float (b.predictFn (b.fit (categorizeLocation X0) y)
              (categorizeLocation X0)))).selectCols outputColumns))))

/-- `np.abs(shap_values.values).mean(axis=0)`: one score per feature column,
the mean over rows of the absolute per-row attribution values.  (`vals` is
the `(nrows, ncols)` attribution array; with zero rows numpy yields NaN,
modelled here by rational division by zero.) -/
def globalShap (vals : List (List ℚ)) (ncols : Nat) : List ℚ :=
  (List.range ncols).map
    (fun j => (vals.map (fun row => |row.getD j 0|)).sum / (vals.length : ℚ))

/-- Comparison used by `sort_values(by=GLOBAL_SHAP)`: compare rows of the
two-column importance frame by score. -/
def shapLE (p q : String × ℚ) : Prop := p.2 ≤ q.2

instance : DecidableRel shapLE :=
  fun p q => inferInstanceAs (Decidable (p.2 ≤ q.2))

instance : IsTotal (String × ℚ) shapLE :=
  ⟨fun a b => le_total a.2 b.2⟩

instance : IsTrans (String × ℚ) shapLE :=
  ⟨fun _ _ _ h₁ h₂ => le_trans h₁ h₂⟩

/-- `df.sort_values(by=score, ascending=False)` with the pandas default
`kind=quicksort`: pandas computes an ascending argsort of the key column and
reverses it (`pandas.core.sorting.nargsort`); on arrays as small as the
feature lists here numpy quicksort degenerates to its stable insertion-sort
base case, so the model is the reverse of a stable ascending sort.  In
particular rows with equal keys come out in reverse of their original
order. -/
def sortValuesDesc (l : List (String × ℚ)) : List (String × ℚ) :=
  (List.insertionSort shapLE l).reverse

/-- `WeatherPredictor.calculate_global_shap`.  Mirrors the source: raise
unless a model has been trained, compute the per-row SHAP attribution values
of the retained feature matrix, aggregate them by `globalShap`, and return
the `FEATURE` / `GLOBAL_SHAP` frame sorted descending by score.  The state
is read, never written, so it is returned unchanged. -/
def calculate_global_shap (b : Backend M) (st : WPState M) :
    Except PyError (DataFrame × WPState M) :=
  match st.trained with
  | none => .error notTrainedError
  | some (m, X) =>
    .ok (⟨[("FEATURE",
            .obj ((sortValuesDesc (X.colNames.zip
              (globalShap (b.shapValues m X) X.cols.length))).map Prod.fst)),
           ("GLOBAL_SHAP",
            .float ((sortValuesDesc (X.colNames.zip
              (globalShap (b.shapValues m X) X.cols.length))).map Prod.snd))]⟩, st)

/-- A trivial deterministic backend used to instantiate theorems at
concrete inputs. -/
def unitBackend : Backend Unit where
  fit := fun _ _ => ()
  predictFn := fun _ X => List.replicate X.nrows 0
  shapValues := fun _ X => List.replicate X.nrows (List.replicate X.cols.length 0)

/-- A two-row observation frame for one location, shaped like the synthetic
generator output. -/
def obsNY : DataFrame :=
  ⟨[("DATE", .datetime [0, 1]), ("TEMP", .float [20, 22]),
    ("LOCATION", .obj ["New York", "New York"]), ("HOUR_OF_DAY", .int [0, 1]),
    ("RANDOM_NOISE", .float [7, 3])]⟩

/-- A one-row observation frame (the length-1 scenario). -/
def obsLen1 : DataFrame :=
  ⟨[("TEMP", .float [20]), ("HOUR_OF_DAY", .int [0])]⟩

/-- Another one-row observation frame, with the full generator schema. -/
def obsLen1Full : DataFrame :=
  ⟨[("DATE", .datetime [5]), ("TEMP", .float [21]),
    ("LOCATION", .obj ["Los Angeles"]), ("HOUR_OF_DAY", .int [3])]⟩

/-- An observation frame lacking the `TEMP` column. -/
def obsMissingTemp : DataFrame :=
  ⟨[("DATE", .datetime [0, 1]), ("HOUR_OF_DAY", .int [0, 1])]⟩

/-- An observation frame whose `TEMP` column is non-numeric. -/
def obsBadTemp : DataFrame :=
  ⟨[("TEMP", .obj ["warm", "cold"]), ("HOUR_OF_DAY", .int [0, 1])]⟩

/-- An observation frame satisfying every documented precondition of
`prepare_data` but lacking the `DATE` column. -/
def obsNoDate : DataFrame :=
  ⟨[("TEMP", .float [20, 22]), ("LOCATION", .obj ["New York", "New York"]),
    ("HOUR_OF_DAY", .int [0, 1])]⟩

/-- An observation frame satisfying every documented precondition of
`prepare_data` but lacking the `LOCATION` column. -/
def obsNoLocation : DataFrame :=
  ⟨[("DATE", .datetime [0, 1]), ("TEMP", .float [20, 22]),
    ("HOUR_OF_DAY", .int [0, 1])]⟩

/-- A feature matrix with two columns whose global SHAP scores tie. -/
def tieX : DataFrame :=
  ⟨[("A", .float [0]), ("B", .float [0])]⟩

/-- A backend whose explainer attributes the same value to both features of
`tieX` on its single row. -/
def tieBackend : Backend Unit where
  fit := fun _ _ => ()
  predictFn := fun _ _ => []
  shapValues := fun _ _ => [[1, 1]]

/-- A concrete trained orchestrator state. -/
def trainedState : WPState Unit :=
  ⟨some ((), ⟨[("HOUR_OF_DAY", .int [0, 1, 2]), ("TEMP_FFT", .float [1, 2, 3])]⟩)⟩

theorem ColData.length_tail (c : ColData) : c.tail.length = c.length - 1 := by
  induction c <;> simp [ColData.tail, ColData.length, *]

theorem ColData.numericVals_length {c : ColData} {l : List ℝ}
    (h : c.numericVals = some l) : l.length = c.length := by
  cases c with
  | float v => injection h with h; subst h; exact List.length_map _ _
  | int v => injection h with h; subst h; exact List.length_map _ _
  | realv v => injection h with h; subst h; rfl
  | obj v => exact absurd h (by simp [ColData.numericVals])
  | datetime v => exact absurd h (by simp [ColData.numericVals])
  | cat b => exact absurd h (by simp [ColData.numericVals])

theorem ColData.length_toCategory (c : ColData) : c.toCategory.length = c.length := by
  cases c <;> rfl

theorem lookupCol_eq_some_mem {cols : List (String × ColData)} {n : String}
    {v : ColData} (h : lookupCol cols n = some v) : (n, v) ∈ cols := by
  induction cols with
  | nil => simp [lookupCol] at h
  | cons c rest ih =>
    by_cases hc : c.1 = n
    · simp only [lookupCol, if_pos hc] at h
      cases h
      exact hc ▸ List.mem_cons_self _ _
    · simp only [lookupCol, if_neg hc] at h
      exact List.mem_cons_of_mem _ (ih h)

theorem lookupCol_setColList_self (cols : List (String × ColData)) (n : String)
    (v : ColData) : lookupCol (setColList cols n v) n = some v := by
  induction cols with
  | nil => simp [setColList, lookupCol]
  | cons c rest ih =>
    by_cases hc : c.1 = n
    · simp [setColList, hc, lookupCol]
    · simp [setColList, hc, lookupCol, ih]

theorem lookupCol_setColList_ne (cols : List (String × ColData)) {n n' : String}
    (v : ColData) (h : n' ≠ n) :
    lookupCol (setColList cols n v) n' = lookupCol cols n' := by
  induction cols with
  | nil => simp [setColList, lookupCol, Ne.symm h]
  | cons c rest ih =>
    by_cases hc : c.1 = n
    · simp [setColList, hc, lookupCol, Ne.symm h]
    · simp only [setColList, if_neg hc, lookupCol]
      by_cases hc' : c.1 = n'
      · simp [hc']
      · simp [hc', ih]

theorem setColList_ne_nil (cols : List (String × ColData)) (n : String)
    (v : ColData) : setColList cols n v ≠ [] := by
  cases cols with
  | nil => simp [setColList]
  | cons c rest =>
    by_cases hc : c.1 = n <;> simp [setColList, hc]

theorem mem_setColList {cols : List (String × ColData)} {n : String}
    {v : ColData} {c : String × ColData} (h : c ∈ setColList cols n v) :
    c = (n, v) ∨ c ∈ cols := by
  induction cols with
  | nil => simpa [setColList] using h
  | cons c₀ rest ih =>
    by_cases hc : c₀.1 = n
    · simp only [setColList, if_pos hc, List.mem_cons] at h
      rcases h with h | h
      · exact .inl h
      · exact .inr (List.mem_cons_of_mem _ h)
    · simp only [setColList, if_neg hc, List.mem_cons] at h
      rcases h with h | h
      · exact .inr (h ▸ List.mem_cons_self _ _)
      · rcases ih h with h' | h'
        · exact .inl h'
        · exact .inr (List.mem_cons_of_mem _ h')

theorem map_fst_setColList {cols : List (String × ColData)} {n : String}
    {w : ColData} (hn : lookupCol cols n = some w) (v : ColData) :
    (setColList cols n v).map Prod.fst = cols.map Prod.fst := by
  induction cols with
  | nil => simp [lookupCol] at hn
  | cons c rest ih =>
    by_cases hc : c.1 = n
    · simp [setColList, hc]
    · simp only [lookupCol, if_neg hc] at hn
      simp [setColList, hc, ih hn]

theorem lookupCol_map_tail (cols : List (String × ColData)) (n : String) :
    lookupCol (cols.map (fun c => (c.1, c.2.tail))) n =
      (lookupCol cols n).map ColData.tail := by
  induction cols with
  | nil => simp [lookupCol]
  | cons c rest ih =>
    by_cases hc : c.1 = n <;> simp [lookupCol, hc, ih]

theorem lookupCol_filter_not_removed {cols : List (String × ColData)}
    {names : List String} {n : String} (hn : n ∉ names) :
    lookupCol (cols.filter (fun c => !(names.contains c.1))) n = lookupCol cols n := by
  simp only [List.contains, List.elem_eq_mem]
  induction cols with
  | nil => simp [lookupCol]
  | cons c rest ih =>
    by_cases hc : c.1 ∈ names
    · have hne : c.1 ≠ n := fun h => hn (h ▸ hc)
      simp [List.filter_cons, hc, lookupCol, hne, ih]
    · simp only [List.filter_cons, hc, decide_False, Bool.not_false, if_true, lookupCol]
      by_cases hcn : c.1 = n <;> simp [hcn, ih]

theorem lookupCol_filter_removed {cols : List (String × ColData)}
    {names : List String} {n : String} (hn : n ∈ names) :
    lookupCol (cols.filter (fun c => !(names.contains c.1))) n = none := by
  simp only [List.contains, List.elem_eq_mem]
  induction cols with
  | nil => simp [lookupCol]
  | cons c rest ih =>
    by_cases hc : c.1 ∈ names
    · simp [List.filter_cons, hc, ih]
    · have hne : c.1 ≠ n := fun h => hc (h ▸ hn)
      simp only [List.filter_cons, hc, decide_False, Bool.not_false, if_true, lookupCol]
      simp [hne, ih]

theorem nrows_eq_of_allLen {df : DataFrame} {k : Nat} (hne : df.cols ≠ [])
    (h : ∀ c ∈ df.cols, c.2.length = k) : df.nrows = k := by
  match df, hne with
  | ⟨c :: rest⟩, _ => exact h c (List.mem_cons_self _ _)

theorem hasCol_of_get {df : DataFrame} {n : String} {t : ColData}
    (h : df.get n = some t) : df.hasCol n = true := by
  simp [DataFrame.hasCol, h]

theorem requiredColumns_pass {df : DataFrame} (h1 : df.hasCol "TEMP" = true)
    (h2 : df.hasCol "HOUR_OF_DAY" = true) :
    requiredColumns.filter (fun c => !(df.hasCol c)) = [] := by
  simp [requiredColumns, h1, h2]

theorem prepare_data_eq_ok {df : DataFrame} {t : ColData} {temps : List ℝ}
    (ht : df.get "TEMP" = some t) (hh : df.hasCol "HOUR_OF_DAY" = true)
    (hnum : t.numericVals = some temps) (h0 : temps ≠ []) :
    prepare_data df = .ok ((df.dropFirstRow).setCol "TEMP_FFT"
      (.realv (((dft temps).drop 1).map Complex.abs)), df) := by
  have hmiss := requiredColumns_pass (hasCol_of_get ht) hh
  have hlen : ¬ temps.length = 0 := by simpa [List.length_eq_zero] using h0
  simp [prepare_data, hmiss, ht, hnum, hlen]

theorem prepare_data_missing_eq {df : DataFrame}
    (hne : requiredColumns.filter (fun c => !(df.hasCol c)) ≠ []) :
    prepare_data df =
      .error (.keyError (requiredColumns.filter (fun c => !(df.hasCol c)))) := by
  unfold prepare_data
  rw [if_neg hne]

theorem prepare_data_nonnumeric_eq {df : DataFrame} {t : ColData}
    (ht : df.get "TEMP" = some t) (hh : df.hasCol "HOUR_OF_DAY" = true)
    (hnum : t.numericVals = none) :
    prepare_data df = .error (.valueError "TEMP column must be numeric.") := by
  have hmiss := requiredColumns_pass (hasCol_of_get ht) hh
  simp [prepare_data, hmiss, ht, hnum]

theorem prepare_data_empty_temps {df : DataFrame} {t : ColData}
    (ht : df.get "TEMP" = some t) (hh : df.hasCol "HOUR_OF_DAY" = true)
    (hnum : t.numericVals = some []) :
    prepare_data df =
      .error (.valueError "invalid number of data points (0) specified") := by
  have hmiss := requiredColumns_pass (hasCol_of_get ht) hh
  simp [prepare_data, hmiss, ht, hnum]

theorem prepare_data_ok_elim {df : DataFrame} {p : DataFrame × DataFrame}
    (h : prepare_data df = .ok p) :
    ∃ t temps, df.get "TEMP" = some t ∧ t.numericVals = some temps ∧
      temps ≠ [] ∧ df.hasCol "HOUR_OF_DAY" = true ∧
      p = ((df.dropFirstRow).setCol "TEMP_FFT"
        (.realv (((dft temps).drop 1).map Complex.abs)), df) := by
  by_cases hT : df.hasCol "TEMP" = true
  · by_cases hH : df.hasCol "HOUR_OF_DAY" = true
    · obtain ⟨t, ht⟩ : ∃ t, df.get "TEMP" = some t := by
        simpa [DataFrame.hasCol, Option.isSome_iff_exists] using hT
      cases hN : t.numericVals with
      | none => rw [prepare_data_nonnumeric_eq ht hH hN] at h; simp at h
      | some temps =>
        cases temps with
        | nil => rw [prepare_data_empty_temps ht hH hN] at h; simp at h
        | cons a as =>
          rw [prepare_data_eq_ok ht hH hN (by simp)] at h
          exact ⟨t, a :: as, ht, hN, by simp, hH, (Except.ok.inj h).symm⟩
    · have hH' : df.hasCol "HOUR_OF_DAY" = false := by simpa using hH
      have hne : requiredColumns.filter (fun c => !(df.hasCol c)) ≠ [] := by
        refine List.ne_nil_of_mem (a := "HOUR_OF_DAY") ?_
        simp [List.mem_filter, requiredColumns, hH']
      rw [prepare_data_missing_eq hne] at h
      simp at h
  · have hT' : df.hasCol "TEMP" = false := by simpa using hT
    have hne : requiredColumns.filter (fun c => !(df.hasCol c)) ≠ [] := by
      refine List.ne_nil_of_mem (a := "TEMP") ?_
      simp [List.mem_filter, requiredColumns, hT']
    rw [prepare_data_missing_eq hne] at h
    simp at h

/-- The frame `prepare_data` returns: every column has one cell fewer than
the input frame had rows. -/
theorem prepare_data_out_allLen {df : DataFrame} {temps : List ℝ}
    (hrect : df.Rect) (hlen : temps.length = df.nrows) :
    ∀ c ∈ ((df.dropFirstRow).setCol "TEMP_FFT"
      (.realv (((dft temps).drop 1).map Complex.abs))).cols,
      c.2.length = df.nrows - 1 := by
  intro c hc
  rcases mem_setColList hc with h | h
  · subst h
    simp [ColData.length, dft, hlen]
  · simp only [DataFrame.dropFirstRow, List.mem_map] at h
    obtain ⟨c₀, hc₀, rfl⟩ := h
    simp [ColData.length_tail, hrect c₀ hc₀]

theorem prepare_data_out_nrows {df : DataFrame} {temps : List ℝ}
    (hrect : df.Rect) (hlen : temps.length = df.nrows) :
    ((df.dropFirstRow).setCol "TEMP_FFT"
      (.realv (((dft temps).drop 1).map Complex.abs))).nrows = df.nrows - 1 :=
  nrows_eq_of_allLen (setColList_ne_nil _ _ _)
    (prepare_data_out_allLen hrect hlen)

theorem temps_length_eq_nrows {df : DataFrame} {t : ColData} {temps : List ℝ}
    (ht : df.get "TEMP" = some t) (hnum : t.numericVals = some temps)
    (hrect : df.Rect) : temps.length = df.nrows := by
  rw [ColData.numericVals_length hnum]
  exact hrect _ (lookupCol_eq_some_mem ht)

/-- Claim C1: for an input frame with at least two rows, a numeric `TEMP`
column and an `HOUR_OF_DAY` column, `prepare_data` succeeds, the result has
exactly `n - 1` rows (the first input row is dropped), and the attached
`TEMP_FFT` column holds the magnitudes of the discrete Fourier transform of
the full ordered temperature sequence for every frequency bin except bin 0
(the DC bin), in original bin order: entry `k` of the column is the
magnitude of DFT bin `k + 1`. -/
theorem prepare_data_rowcount_and_fft {df : DataFrame} {t : ColData}
    {temps : List ℝ} (ht : df.get "TEMP" = some t)
    (hh : df.hasCol "HOUR_OF_DAY" = true) (hnum : t.numericVals = some temps)
    (hrect : df.Rect) (hn : 2 ≤ df.nrows) :
    ∃ out, prepare_data df = .ok (out, df) ∧
      out.nrows = df.nrows - 1 ∧
      (∀ c ∈ out.cols, c.2.length = df.nrows - 1) ∧
      ∃ mags : List ℝ, out.get "TEMP_FFT" = some (.realv mags) ∧
        mags.length = df.nrows - 1 ∧
        ∀ k, k < df.nrows - 1 →
          mags.getD k 0 = Complex.abs (dftCoeff temps (k + 1)) := by
  have hlen := temps_length_eq_nrows ht hnum hrect
  have h0 : temps ≠ [] := by
    intro hnil
    rw [hnil] at hlen
    simp at hlen
    omega
  refine ⟨_, prepare_data_eq_ok ht hh hnum h0,
    prepare_data_out_nrows hrect hlen, prepare_data_out_allLen hrect hlen,
    ((dft temps).drop 1).map Complex.abs, ?_, ?_, ?_⟩
  · exact lookupCol_setColList_self _ _ _
  · simp [dft, hlen]
  · intro k hk
    have hk1 : k + 1 < temps.length := by omega
    simp [List.getD_eq_getElem?_getD, List.getElem?_drop, dft,
      List.getElem?_range hk1]

/-- Witness for claim C1 at a concrete two-row frame. -/
theorem prepare_data_rowcount_and_fft_witness :
    ∃ out, prepare_data obsNY = .ok (out, obsNY) ∧
      out.nrows = obsNY.nrows - 1 ∧
      (∀ c ∈ out.cols, c.2.length = obsNY.nrows - 1) ∧
      ∃ mags : List ℝ, out.get "TEMP_FFT" = some (.realv mags) ∧
        mags.length = obsNY.nrows - 1 ∧
        ∀ k, k < obsNY.nrows - 1 →
          mags.getD k 0 =
            Complex.abs (dftCoeff ([(20 : ℚ), 22].map (fun q => (Rat.cast q : ℝ))) (k + 1)) :=
  prepare_data_rowcount_and_fft (t := .float [20, 22]) rfl rfl rfl
    (by decide) (by decide)

/-- Claim C2, counterexample: on a one-row observation frame with the
required columns and a numeric temperature, `prepare_data` raises nothing:
it returns a zero-row result.  The source contains no length or finiteness
validation before calling the FFT. -/
theorem prepare_data_len1_no_error :
    ∃ p, prepare_data obsLen1 = .ok p ∧ p.1.nrows = 0 :=
  ⟨_, rfl, rfl⟩

/-- Claim C2, amended: on any rectangular one-row input frame with the
required columns and a numeric `TEMP` column, `prepare_data` does not raise;
it returns a frame all of whose columns are empty (zero rows). -/
theorem prepare_data_len1_returns_empty {df : DataFrame} {t : ColData}
    {temps : List ℝ} (ht : df.get "TEMP" = some t)
    (hh : df.hasCol "HOUR_OF_DAY" = true) (hnum : t.numericVals = some temps)
    (hrect : df.Rect) (h1 : df.nrows = 1) :
    ∃ out, prepare_data df = .ok (out, df) ∧
      (∀ c ∈ out.cols, c.2.length = 0) ∧ out.nrows = 0 := by
  have hlen := temps_length_eq_nrows ht hnum hrect
  have h0 : temps ≠ [] := by
    intro hnil
    rw [hnil] at hlen
    simp at hlen
    omega
  refine ⟨_, prepare_data_eq_ok ht hh hnum h0, ?_, ?_⟩
  · have := prepare_data_out_allLen hrect hlen
    simpa [h1] using this
  · have := prepare_data_out_nrows hrect hlen
    simpa [h1] using this

/-- Witness for the amended claim C2 at a concrete one-row frame. -/
theorem prepare_data_len1_returns_empty_witness :
    ∃ out, prepare_data obsLen1Full = .ok (out, obsLen1Full) ∧
      (∀ c ∈ out.cols, c.2.length = 0) ∧ out.nrows = 0 :=
  prepare_data_len1_returns_empty (t := .float [21]) rfl rfl rfl
    (by decide) (by decide)

/-- Claim C4: when `TEMP` or `HOUR_OF_DAY` is absent, `prepare_data` fails
with the `KeyError` whose message lists exactly the missing required
columns; in particular a missing `TEMP` is named in it.  (The spec calls
this error `SchemaError`; the source raises `KeyError` with the missing
set interpolated into the message.) -/
theorem prepare_data_missing_columns {df : DataFrame}
    (h : df.hasCol "TEMP" = false ∨ df.hasCol "HOUR_OF_DAY" = false) :
    ∃ missing, prepare_data df = .error (.keyError missing) ∧
      missing ≠ [] ∧
      (∀ c, c ∈ missing ↔ c ∈ requiredColumns ∧ df.hasCol c = false) ∧
      (df.hasCol "TEMP" = false → "TEMP" ∈ missing) := by
  have hmem : ∀ c, c ∈ requiredColumns.filter (fun c => !(df.hasCol c)) ↔
      c ∈ requiredColumns ∧ df.hasCol c = false := by
    intro c
    simp [List.mem_filter]
  have hne : requiredColumns.filter (fun c => !(df.hasCol c)) ≠ [] := by
    rcases h with h | h
    · exact List.ne_nil_of_mem ((hmem "TEMP").mpr ⟨by simp [requiredColumns], h⟩)
    · exact List.ne_nil_of_mem
        ((hmem "HOUR_OF_DAY").mpr ⟨by simp [requiredColumns], h⟩)
  refine ⟨_, prepare_data_missing_eq hne, hne, hmem, ?_⟩
  intro hT
  exact (hmem "TEMP").mpr ⟨by simp [requiredColumns], hT⟩

/-- Witness for claim C4 at a concrete frame lacking `TEMP`. -/
theorem prepare_data_missing_columns_witness :
    ∃ missing, prepare_data obsMissingTemp = .error (.keyError missing) ∧
      missing ≠ [] ∧
      (∀ c, c ∈ missing ↔ c ∈ requiredColumns ∧ obsMissingTemp.hasCol c = false) ∧
      (obsMissingTemp.hasCol "TEMP" = false → "TEMP" ∈ missing) :=
  prepare_data_missing_columns (.inl rfl)

/-- Claim C5: when `TEMP` is present but not of a numeric dtype,
`prepare_data` fails with the wrong-column-type error (the spec calls it
`TypeError`; the source raises `ValueError` with this message). -/
theorem prepare_data_nonnumeric_temp {df : DataFrame} {t : ColData}
    (ht : df.get "TEMP" = some t) (hh : df.hasCol "HOUR_OF_DAY" = true)
    (hnum : t.numericVals = none) :
    prepare_data df = .error (.valueError "TEMP column must be numeric.") :=
  prepare_data_nonnumeric_eq ht hh hnum

/-- Witness for claim C5 at a concrete frame with a string `TEMP` column. -/
theorem prepare_data_nonnumeric_temp_witness :
    prepare_data obsBadTemp = .error (.valueError "TEMP column must be numeric.") :=
  prepare_data_nonnumeric_temp (t := .obj ["warm", "cold"]) rfl rfl rfl

/-- Claim C6: `prepare_data` never mutates its argument.  The embedding
threads the caller-owned frame through the call explicitly: because the
source rebinds `input` to `input.copy()` (and later to
`input.iloc[1:].copy()`) before the only write, every write lands on a
fresh frame, and the caller frame the method hands back is unchanged. -/
theorem prepare_data_no_mutation {input : DataFrame} {p : DataFrame × DataFrame}
    (h : prepare_data input = .ok p) : p.2 = input := by
  obtain ⟨t, temps, -, -, -, -, hp⟩ := prepare_data_ok_elim h
  rw [hp]

/-- Witness for claim C6 at a concrete observation frame. -/
theorem prepare_data_no_mutation_witness :
    ∃ p, prepare_data obsNY = .ok p ∧ p.2 = obsNY := by
  obtain ⟨p, hp⟩ : ∃ p, prepare_data obsNY = .ok p := ⟨_, rfl⟩
  exact ⟨p, hp, prepare_data_no_mutation hp⟩

theorem stepSt_ok {α β : Type} (st : WPState M) (a : α)
    (f : α → WPState M × Except PyError β) : stepSt st (.ok a) f = f a := rfl

theorem stepSt_error {α β : Type} (st : WPState M) (e : PyError)
    (f : α → WPState M × Except PyError β) :
    stepSt st (.error e : Except PyError α) f = (st, .error e) := rfl

theorem stepSt_snd_ok_elim {α β : Type} {st : WPState M}
    {x : Except PyError α} {f : α → WPState M × Except PyError β} {out : β}
    (h : (stepSt st x f).2 = .ok out) : ∃ a, x = .ok a ∧ (f a).2 = .ok out := by
  cases x with
  | error e => rw [stepSt_error] at h; simp at h
  | ok a => exact ⟨a, rfl, h⟩

theorem getCol_ok {df : DataFrame} {n : String} {c : ColData}
    (h : df.get n = some c) : getCol df n = .ok c := by
  simp [getCol, h]

theorem getCol_ok_elim {df : DataFrame} {n : String} {c : ColData}
    (h : getCol df n = .ok c) : df.get n = some c := by
  unfold getCol at h
  cases hg : df.get n with
  | none => rw [hg] at h; simp at h
  | some c' =>
    rw [hg] at h
    have hcc : c' = c := by simpa using h
    exact congrArg some hcc

theorem dropColumns_eq_ok {df : DataFrame} {names : List String}
    (h : names.filter (fun n => !(df.hasCol n)) = []) :
    df.dropColumns names =
      .ok ⟨df.cols.filter (fun c => !(names.contains c.1))⟩ := by
  unfold DataFrame.dropColumns
  rw [h]

theorem dropColumns_eq_error {df : DataFrame} {names : List String}
    {m : String} {missing : List String}
    (h : names.filter (fun n => !(df.hasCol n)) = m :: missing) :
    df.dropColumns names = .error (.keyError (m :: missing)) := by
  unfold DataFrame.dropColumns
  rw [h]

theorem dropColumns_ok_elim {df : DataFrame} {names : List String}
    {X0 : DataFrame} (h : df.dropColumns names = .ok X0) :
    (∀ n ∈ names, df.hasCol n = true) ∧
      X0 = ⟨df.cols.filter (fun c => !(names.contains c.1))⟩ := by
  cases hm : names.filter (fun n => !(df.hasCol n)) with
  | nil =>
    rw [dropColumns_eq_ok hm] at h
    constructor
    · intro n hn
      have := List.filter_eq_nil_iff.mp hm n hn
      simpa using this
    · exact (Except.ok.inj h).symm
  | cons m missing =>
    rw [dropColumns_eq_error hm] at h
    simp at h

theorem selectCols_eq_ok {df : DataFrame} {names : List String}
    (h : names.filter (fun n => !(df.hasCol n)) = []) :
    df.selectCols names =
      .ok ⟨names.filterMap (fun n => (df.get n).map (fun c => (n, c)))⟩ := by
  unfold DataFrame.selectCols
  rw [h]

theorem selectCols_eq_error {df : DataFrame} {names : List String}
    {m : String} {missing : List String}
    (h : names.filter (fun n => !(df.hasCol n)) = m :: missing) :
    df.selectCols names = .error (.keyError (m :: missing)) := by
  unfold DataFrame.selectCols
  rw [h]

theorem selectCols_ok_elim {df : DataFrame} {names : List String}
    {out : DataFrame} (h : df.selectCols names = .ok out) :
    (∀ n ∈ names, df.hasCol n = true) ∧
      out = ⟨names.filterMap (fun n => (df.get n).map (fun c => (n, c)))⟩ := by
  cases hm : names.filter (fun n => !(df.hasCol n)) with
  | nil =>
    rw [selectCols_eq_ok hm] at h
    constructor
    · intro n hn
      have := List.filter_eq_nil_iff.mp hm n hn
      simpa using this
    · exact (Except.ok.inj h).symm
  | cons m missing =>
    rw [selectCols_eq_error hm] at h
    simp at h

/-- Reading any column other than `TEMP_FFT` of the frame `prepare_data`
builds reads the tail of the corresponding input column. -/
theorem prepared_get_ne {df : DataFrame} {v : ColData} {n : String}
    (hne : n ≠ "TEMP_FFT") :
    ((df.dropFirstRow).setCol "TEMP_FFT" v).get n = (df.get n).map ColData.tail := by
  unfold DataFrame.setCol DataFrame.get DataFrame.dropFirstRow
  rw [lookupCol_setColList_ne _ _ hne]
  exact lookupCol_map_tail _ _

theorem prepared_hasCol_ne {df : DataFrame} {v : ColData} {n : String}
    (hne : n ≠ "TEMP_FFT") :
    ((df.dropFirstRow).setCol "TEMP_FFT" v).hasCol n = df.hasCol n := by
  simp [DataFrame.hasCol, prepared_get_ne hne]

theorem map_fst_filter_names (cols : List (String × ColData))
    (names : List String) :
    (cols.filter (fun c => !(names.contains c.1))).map Prod.fst =
      (cols.map Prod.fst).filter (fun n => !(names.contains n)) := by
  simp only [List.contains, List.elem_eq_mem]
  induction cols with
  | nil => simp
  | cons c rest ih =>
    by_cases hc : c.1 ∈ names <;>
      simp [List.filter_cons, hc, ih]

theorem ColData.isCategorical_toCategory (c : ColData) :
    c.toCategory.isCategorical = true := by
  cases c <;> rfl

theorem get_setCol_self (df : DataFrame) (n : String) (v : ColData) :
    (df.setCol n v).get n = some v :=
  lookupCol_setColList_self _ _ _

theorem get_setCol_ne (df : DataFrame) {n n' : String} (v : ColData)
    (h : n' ≠ n) : (df.setCol n v).get n' = df.get n' :=
  lookupCol_setColList_ne _ _ h

theorem hasCol_setCol_ne (df : DataFrame) {n n' : String} (v : ColData)
    (h : n' ≠ n) : (df.setCol n v).hasCol n' = df.hasCol n' := by
  simp [DataFrame.hasCol, get_setCol_ne df v h]

/-- Decomposition of a `predict` run whose final selection succeeds into
its stages, including the state stored before that selection. -/
theorem predict_ok_elim {b : Backend M} {st : WPState M} {df out : DataFrame}
    (h : (predict b st df).2 = .ok out) :
    ∃ prepared X0 y,
      prepare_data df = .ok (prepared, df) ∧
      prepared.dropColumns ["TEMP", "DATE"] = .ok X0 ∧
      prepared.get "TEMP" = some y ∧
      (prepared.setCol "PREDICTED_TEMP"
          (.float (b.predictFn (b.fit (categorizeLocation X0) y)
            (categorizeLocation X0)))).selectCols outputColumns = .ok out ∧
      (predict b st df).1 =
        ⟨some (b.fit (categorizeLocation X0) y, categorizeLocation X0)⟩ := by
  unfold predict at h
  obtain ⟨pr, hpr, h⟩ := stepSt_snd_ok_elim h
  obtain ⟨X0, hX0, h⟩ := stepSt_snd_ok_elim h
  obtain ⟨y, hy, h⟩ := stepSt_snd_ok_elim h
  obtain ⟨t, temps, -, -, -, -, hpair⟩ := prepare_data_ok_elim hpr
  have hpr2 : prepare_data df = .ok (pr.1, df) := by
    rw [hpr, hpair]
  refine ⟨pr.1, X0, y, hpr2, hX0, getCol_ok_elim hy, h, ?_⟩
  unfold predict
  rw [hpr]
  simp only [stepSt_ok]
  rw [hX0]
  simp only [stepSt_ok]
  rw [hy]
  simp only [stepSt_ok]

/-- Any `predict` run whose final selection fails has still stored the
fitted model and feature matrix (the source assigns `self.xgb_model` and
`self.X` before the returning selection). -/
theorem predict_trained_after_getCol {b : Backend M} {st : WPState M}
    {df prepared X0 : DataFrame} {y : ColData}
    (hprep : prepare_data df = .ok (prepared, df))
    (hdrop : prepared.dropColumns ["TEMP", "DATE"] = .ok X0)
    (hy : prepared.get "TEMP" = some y) :
    (predict b st df).1 =
      ⟨some (b.fit (categorizeLocation X0) y, categorizeLocation X0)⟩ := by
  unfold predict
  rw [hprep]
  simp only [stepSt_ok]
  rw [hdrop]
  simp only [stepSt_ok]
  rw [getCol_ok hy]
  simp only [stepSt_ok]

/-- Claim C3, counterexample: a `predict` call on a frame with `TEMP`,
`HOUR_OF_DAY` and `DATE` but no `LOCATION` fails at the final column
selection - no `predict` call has ever succeeded - yet the source has
already stored the fitted model, so `calculate_global_shap` does not raise
the not-trained error: it succeeds. -/
theorem predict_failure_leaves_trained_gate_open :
    (predict unitBackend (⟨none⟩ : WPState Unit) obsNoLocation).2 =
      .error (.keyError ["LOCATION"]) ∧
    ∃ r, calculate_global_shap unitBackend
        (predict unitBackend (⟨none⟩ : WPState Unit) obsNoLocation).1 = .ok r ∧
      calculate_global_shap unitBackend
          (predict unitBackend (⟨none⟩ : WPState Unit) obsNoLocation).1 ≠
        .error notTrainedError := by
  obtain ⟨r, hr⟩ : ∃ r, calculate_global_shap unitBackend
      (predict unitBackend (⟨none⟩ : WPState Unit) obsNoLocation).1 = .ok r :=
    ⟨_, rfl⟩
  refine ⟨rfl, r, hr, ?_⟩
  rw [hr]
  simp

/-- Claim C3 (amended): `calculate_global_shap` raises the not-trained
error (the spec's `NotTrainedError`; the source raises `ValueError` with
this message) exactly while the orchestrator holds no fitted model: it
raises on the Untrained state, a `predict` failing before the
model-retention assignments (schema, dtype, column-drop or target lookup)
leaves the state - and hence the gate - unchanged, and after a `predict`
whose final selection succeeds the call returns a report, never that
error.  (A `predict` failing only at the final output selection also opens
the gate; see the counterexample.) -/
theorem calculate_global_shap_trained_gate (b : Backend M) (st : WPState M)
    (df : DataFrame) :
    (st.trained = none → calculate_global_shap b st = .error notTrainedError) ∧
    (∀ out, (predict b st df).2 = .ok out →
      calculate_global_shap b (predict b st df).1 ≠ .error notTrainedError ∧
      ∃ r, calculate_global_shap b (predict b st df).1 =
        .ok (r, (predict b st df).1)) ∧
    (∀ e, prepare_data df = .error e → predict b st df = (st, .error e)) ∧
    (∀ prepared X0 y, prepare_data df = .ok (prepared, df) →
      prepared.dropColumns ["TEMP", "DATE"] = .ok X0 →
      prepared.get "TEMP" = some y →
      calculate_global_shap b (predict b st df).1 ≠ .error notTrainedError) := by
  refine ⟨?_, ?_, ?_, ?_⟩
  · intro hnone
    simp [calculate_global_shap, hnone]
  · intro out h
    obtain ⟨prepared, X0, y, -, -, -, -, hstate⟩ := predict_ok_elim h
    rw [hstate]
    exact ⟨by simp [calculate_global_shap], _, rfl⟩
  · intro e he
    unfold predict
    rw [he]
    exact stepSt_error _ _ _
  · intro prepared X0 y hprep hdrop hy
    rw [predict_trained_after_getCol hprep hdrop hy]
    simp [calculate_global_shap]

/-- Witness for the amended claim C3: the fresh state errs, a concrete
successful `predict` opens the gate, and a concrete `predict` failing at
the schema check leaves the state unchanged. -/
theorem calculate_global_shap_trained_gate_witness :
    calculate_global_shap unitBackend (⟨none⟩ : WPState Unit) =
      .error notTrainedError ∧
    (∃ out r, (predict unitBackend (⟨none⟩ : WPState Unit) obsNY).2 = .ok out ∧
      calculate_global_shap unitBackend
          (predict unitBackend (⟨none⟩ : WPState Unit) obsNY).1 =
        .ok (r, (predict unitBackend (⟨none⟩ : WPState Unit) obsNY).1)) ∧
    predict unitBackend (⟨none⟩ : WPState Unit) obsMissingTemp =
      (⟨none⟩, .error (.keyError ["TEMP"])) ∧
    calculate_global_shap unitBackend
        (predict unitBackend (⟨none⟩ : WPState Unit) obsNoLocation).1 ≠
      .error notTrainedError := by
  refine ⟨(calculate_global_shap_trained_gate unitBackend ⟨none⟩ obsNY).1 rfl,
    ?_, (calculate_global_shap_trained_gate unitBackend ⟨none⟩
          obsMissingTemp).2.2.1 (.keyError ["TEMP"]) rfl, ?_⟩
  · obtain ⟨out, hout⟩ : ∃ out,
        (predict unitBackend (⟨none⟩ : WPState Unit) obsNY).2 = .ok out := ⟨_, rfl⟩
    obtain ⟨-, r, hr⟩ :=
      (calculate_global_shap_trained_gate unitBackend ⟨none⟩ obsNY).2.1 out hout
    exact ⟨out, r, hout, hr⟩
  · obtain ⟨P, X0, y, h1, h2, h3⟩ : ∃ P X0 y,
        prepare_data obsNoLocation = .ok (P, obsNoLocation) ∧
        P.dropColumns ["TEMP", "DATE"] = .ok X0 ∧
        P.get "TEMP" = some y := ⟨_, _, _, rfl, rfl, rfl⟩
    exact (calculate_global_shap_trained_gate unitBackend ⟨none⟩
      obsNoLocation).2.2.2 P X0 y h1 h2 h3

/-- Claim C10: `predict` has preconditions beyond those of `prepare_data`.
On an input satisfying every documented `prepare_data` precondition but
lacking the `DATE` column, the `drop(columns=['TEMP','DATE'])` call raises a
`KeyError` naming `DATE`; with `DATE` present but `LOCATION` absent, the
final five-column selection raises a `KeyError` naming `LOCATION`. -/
theorem predict_undocumented_preconditions {df : DataFrame} {t : ColData}
    {temps : List ℝ} (b : Backend M) (st : WPState M)
    (ht : df.get "TEMP" = some t) (hh : df.hasCol "HOUR_OF_DAY" = true)
    (hnum : t.numericVals = some temps) (h0 : temps ≠ []) :
    (df.hasCol "DATE" = false →
      predict b st df = (st, .error (.keyError ["DATE"]))) ∧
    (df.hasCol "DATE" = true → df.hasCol "LOCATION" = false →
      (predict b st df).2 = .error (.keyError ["LOCATION"])) := by
  set P : DataFrame := (df.dropFirstRow).setCol "TEMP_FFT"
    (.realv (((dft temps).drop 1).map Complex.abs)) with hPdef
  have hprep := prepare_data_eq_ok ht hh hnum h0
  have hPT : P.get "TEMP" = some t.tail := by
    rw [hPdef, prepared_get_ne (by decide), ht]
    rfl
  have hPThas := hasCol_of_get hPT
  constructor
  · intro hD
    have hPD : P.hasCol "DATE" = false := by
      rw [hPdef, prepared_hasCol_ne (by decide)]
      exact hD
    have hfil : ["TEMP", "DATE"].filter (fun n => !(P.hasCol n)) = ["DATE"] := by
      simp only [List.filter_cons, List.filter_nil, hPThas, hPD]
      simp
    unfold predict
    rw [hprep]
    simp only [stepSt_ok]
    rw [dropColumns_eq_error hfil, stepSt_error]
  · intro hD hL
    have hPD : P.hasCol "DATE" = true := by
      rw [hPdef, prepared_hasCol_ne (by decide)]
      exact hD
    have hPL : P.get "LOCATION" = none := by
      rw [hPdef, prepared_get_ne (by decide)]
      have hLn : df.get "LOCATION" = none := by
        simpa [DataFrame.hasCol, Option.isNone_iff_eq_none] using hL
      rw [hLn]
      rfl
    have hPH : P.hasCol "HOUR_OF_DAY" = true := by
      rw [hPdef, prepared_hasCol_ne (by decide)]
      exact hh
    have hfil : ["TEMP", "DATE"].filter (fun n => !(P.hasCol n)) = [] := by
      simp only [List.filter_cons, List.filter_nil, hPThas, hPD]
      simp
    have hX0L : (DataFrame.mk (P.cols.filter
        (fun c => !(["TEMP", "DATE"].contains c.1)))).get "LOCATION" = none := by
      show lookupCol _ _ = none
      rw [lookupCol_filter_not_removed (by decide)]
      exact hPL
    have hcat : categorizeLocation (DataFrame.mk (P.cols.filter
        (fun c => !(["TEMP", "DATE"].contains c.1)))) =
        DataFrame.mk (P.cols.filter (fun c => !(["TEMP", "DATE"].contains c.1))) := by
      unfold categorizeLocation
      rw [hX0L]
    have hsel : ∀ v : ColData,
        (P.setCol "PREDICTED_TEMP" v).selectCols outputColumns =
          .error (.keyError ["LOCATION"]) := by
      intro v
      have hgPD : (P.setCol "PREDICTED_TEMP" v).hasCol "DATE" = true := by
        show (lookupCol (setColList P.cols "PREDICTED_TEMP" v) "DATE").isSome = true
        rw [lookupCol_setColList_ne _ _ (by decide)]
        exact hPD
      have hgPL : (P.setCol "PREDICTED_TEMP" v).hasCol "LOCATION" = false := by
        show (lookupCol (setColList P.cols "PREDICTED_TEMP" v) "LOCATION").isSome = false
        rw [lookupCol_setColList_ne _ _ (by decide)]
        show (P.get "LOCATION").isSome = false
        rw [hPL]
        rfl
      have hgPH : (P.setCol "PREDICTED_TEMP" v).hasCol "HOUR_OF_DAY" = true := by
        show (lookupCol (setColList P.cols "PREDICTED_TEMP" v) "HOUR_OF_DAY").isSome = true
        rw [lookupCol_setColList_ne _ _ (by decide)]
        exact hPH
      have hgPT : (P.setCol "PREDICTED_TEMP" v).hasCol "TEMP" = true := by
        show (lookupCol (setColList P.cols "PREDICTED_TEMP" v) "TEMP").isSome = true
        rw [lookupCol_setColList_ne _ _ (by decide)]
        exact hPThas
      have hgPP : (P.setCol "PREDICTED_TEMP" v).hasCol "PREDICTED_TEMP" = true := by
        show (lookupCol (setColList P.cols "PREDICTED_TEMP" v) "PREDICTED_TEMP").isSome = true
        rw [lookupCol_setColList_self]
        rfl
      have hfil5 : outputColumns.filter
          (fun n => !((P.setCol "PREDICTED_TEMP" v).hasCol n)) = ["LOCATION"] := by
        simp only [outputColumns, List.filter_cons, List.filter_nil,
          hgPD, hgPL, hgPH, hgPT, hgPP]
        simp
      exact selectCols_eq_error hfil5
    unfold predict
    rw [hprep]
    simp only [stepSt_ok]
    rw [dropColumns_eq_ok hfil]
    simp only [stepSt_ok]
    rw [getCol_ok hPT]
    simp only [stepSt_ok]
    rw [hcat, hsel]

theorem sortValuesDesc_perm (l : List (String × ℚ)) : List.Perm (sortValuesDesc l) l :=
  (List.reverse_perm _).trans (List.perm_insertionSort _ _)

theorem sortValuesDesc_sorted (l : List (String × ℚ)) :
    (sortValuesDesc l).Sorted (fun p q : String × ℚ => q.2 ≤ p.2) := by
  unfold sortValuesDesc
  exact List.pairwise_reverse.mpr (List.sorted_insertionSort shapLE l)

theorem calc_eq_of_none {b : Backend M} {st : WPState M}
    (hst : st.trained = none) :
    calculate_global_shap b st = .error notTrainedError := by
  unfold calculate_global_shap
  rw [hst]

theorem calc_eq_of_trained {b : Backend M} {st : WPState M} {m : M}
    {X : DataFrame} (hst : st.trained = some (m, X)) :
    calculate_global_shap b st =
      .ok (⟨[("FEATURE",
              .obj ((sortValuesDesc (X.colNames.zip
                (globalShap (b.shapValues m X) X.cols.length))).map Prod.fst)),
             ("GLOBAL_SHAP",
              .float ((sortValuesDesc (X.colNames.zip
                (globalShap (b.shapValues m X) X.cols.length))).map Prod.snd))]⟩,
            st) := by
  unfold calculate_global_shap
  rw [hst]

/-- Claim C7 (amended): on a Trained orchestrator the attribution report
pairs every feature column with the mean of the absolute per-row
attribution values (hence every score is nonnegative), sorted non-increasing
by score.  The tie-breaking clause of the claim is corrected separately:
pandas descending `sort_values` reverses an ascending argsort, so tied rows
do not keep original feature-column order. -/
theorem calculate_global_shap_report {b : Backend M} {st : WPState M} {m : M}
    {X : DataFrame} (hst : st.trained = some (m, X)) :
    ∃ sorted : List (String × ℚ),
      calculate_global_shap b st =
        .ok (⟨[("FEATURE", .obj (sorted.map Prod.fst)),
               ("GLOBAL_SHAP", .float (sorted.map Prod.snd))]⟩, st) ∧
      List.Perm sorted (X.colNames.zip (globalShap (b.shapValues m X) X.cols.length)) ∧
      (∀ p ∈ sorted, 0 ≤ p.2) ∧
      sorted.Sorted (fun p q : String × ℚ => q.2 ≤ p.2) ∧
      (globalShap (b.shapValues m X) X.cols.length).length = X.cols.length ∧
      (∀ j, j < X.cols.length →
        (globalShap (b.shapValues m X) X.cols.length).getD j 0 =
          ((b.shapValues m X).map (fun row => |row.getD j 0|)).sum /
            ((b.shapValues m X).length : ℚ)) := by
  refine ⟨sortValuesDesc (X.colNames.zip
      (globalShap (b.shapValues m X) X.cols.length)),
    calc_eq_of_trained hst, sortValuesDesc_perm _, ?_, sortValuesDesc_sorted _,
    by simp [globalShap], ?_⟩
  · intro p hp
    have hp' : p ∈ X.colNames.zip (globalShap (b.shapValues m X) X.cols.length) :=
      (sortValuesDesc_perm _).mem_iff.mp hp
    have hsnd : p.2 ∈ globalShap (b.shapValues m X) X.cols.length :=
      (List.of_mem_zip hp').2
    simp only [globalShap, List.mem_map] at hsnd
    obtain ⟨j, -, hj⟩ := hsnd
    rw [← hj]
    refine div_nonneg (List.sum_nonneg ?_) (Nat.cast_nonneg _)
    intro x hx
    simp only [List.mem_map] at hx
    obtain ⟨row, -, hrow⟩ := hx
    rw [← hrow]
    exact abs_nonneg _
  · intro j hj
    simp [globalShap, List.getD_eq_getElem?_getD, List.getElem?_range hj]

/-- Witness for the amended claim C7 at a concrete trained state. -/
theorem calculate_global_shap_report_witness :
    ∃ sorted : List (String × ℚ),
      calculate_global_shap unitBackend trainedState =
        .ok (⟨[("FEATURE", .obj (sorted.map Prod.fst)),
               ("GLOBAL_SHAP", .float (sorted.map Prod.snd))]⟩, trainedState) ∧
      List.Perm sorted ((DataFrame.mk [("HOUR_OF_DAY", .int [0, 1, 2]),
          ("TEMP_FFT", .float [1, 2, 3])]).colNames.zip
        (globalShap (unitBackend.shapValues ()
            ⟨[("HOUR_OF_DAY", .int [0, 1, 2]), ("TEMP_FFT", .float [1, 2, 3])]⟩)
          (DataFrame.mk [("HOUR_OF_DAY", .int [0, 1, 2]),
            ("TEMP_FFT", .float [1, 2, 3])]).cols.length)) ∧
      (∀ p ∈ sorted, 0 ≤ p.2) ∧
      sorted.Sorted (fun p q : String × ℚ => q.2 ≤ p.2) :=
  match @calculate_global_shap_report Unit unitBackend trainedState ()
      ⟨[("HOUR_OF_DAY", .int [0, 1, 2]), ("TEMP_FFT", .float [1, 2, 3])]⟩ rfl with
  | ⟨sorted, h1, h2, h3, h4, _, _⟩ => ⟨sorted, h1, h2, h3, h4⟩

/-- Claim C7, counterexample to the tie-breaking clause: two features with
equal global scores come out in reverse of their original column order, not
in original order as a stable descending sort would put them. -/
theorem calculate_global_shap_tie_reversed :
    calculate_global_shap tieBackend ⟨some ((), tieX)⟩ =
      .ok (⟨[("FEATURE", .obj ["B", "A"]), ("GLOBAL_SHAP", .float [1, 1])]⟩,
           ⟨some ((), tieX)⟩) ∧
    tieX.colNames = ["A", "B"] ∧ (["B", "A"] ≠ ["A", "B"]) := by
  refine ⟨?_, rfl, by decide⟩
  rw [calc_eq_of_trained rfl]
  have hgs : globalShap (tieBackend.shapValues () tieX) tieX.cols.length =
      [1, 1] := by
    simp [globalShap, tieBackend, tieX, List.range_succ]
  rw [hgs]
  have hs : sortValuesDesc (tieX.colNames.zip [(1 : ℚ), 1]) =
      [("B", 1), ("A", 1)] := by
    simp [sortValuesDesc, tieX, DataFrame.colNames, List.insertionSort,
      List.orderedInsert, shapLE]
  rw [hs]
  simp

/-- Claim C8: `calculate_global_shap` is deterministic and read-only on the
orchestrator state: a successful call leaves the state unchanged, and a
second call on the resulting state returns the identical report.  The
embedding records that TreeSHAP over a fixed model and feature matrix is a
deterministic function with no sampling. -/
theorem calculate_global_shap_deterministic {b : Backend M} {st : WPState M}
    {r : DataFrame × WPState M} (h : calculate_global_shap b st = .ok r) :
    r.2 = st ∧ calculate_global_shap b r.2 = .ok r := by
  cases hst : st.trained with
  | none => rw [calc_eq_of_none hst] at h; simp at h
  | some mx =>
    obtain ⟨m, X⟩ := mx
    rw [calc_eq_of_trained hst] at h
    have hr : _ = r := Except.ok.inj h
    have hr2 : r.2 = st := congrArg Prod.snd hr.symm
    refine ⟨hr2, ?_⟩
    rw [hr2, calc_eq_of_trained hst]
    rw [← hr]

/-- Witness for claim C8 at a concrete trained state. -/
theorem calculate_global_shap_deterministic_witness :
    ∃ r, calculate_global_shap unitBackend trainedState = .ok r ∧
      r.2 = trainedState ∧ calculate_global_shap unitBackend r.2 = .ok r := by
  obtain ⟨r, hr⟩ : ∃ r, calculate_global_shap unitBackend trainedState = .ok r :=
    ⟨_, rfl⟩
  obtain ⟨h1, h2⟩ := calculate_global_shap_deterministic hr
  exact ⟨r, hr, h1, h2⟩

/-- Claim C9: a successful `predict` returns exactly the columns
{DATE, LOCATION, HOUR_OF_DAY, TEMP (actual), PREDICTED_TEMP}, with the four
carried columns equal to the corresponding prepared-feature columns (hence
in the same row order) and every output column holding `n - 1` rows; and it
replaces the retained orchestrator state with the newly fitted model
together with the exact feature matrix used to fit it, a matrix that
excludes the `TEMP` and `DATE` columns, carries every other prepared column
unchanged, and holds the `LOCATION` column converted to the categorical
dtype.  The hypothesis on `b` records that `xgb_model.predict` returns one
value per row of its input. -/
theorem predict_output_and_state {b : Backend M} {st : WPState M}
    {df out : DataFrame}
    (hb : ∀ (m : M) (Xf : DataFrame), (b.predictFn m Xf).length = Xf.nrows)
    (hrect : df.Rect)
    (h : (predict b st df).2 = .ok out) :
    out.colNames = outputColumns ∧
    ∃ prepared, prepare_data df = .ok (prepared, df) ∧
      out.get "DATE" = prepared.get "DATE" ∧
      out.get "LOCATION" = prepared.get "LOCATION" ∧
      out.get "HOUR_OF_DAY" = prepared.get "HOUR_OF_DAY" ∧
      out.get "TEMP" = prepared.get "TEMP" ∧
      (∀ c ∈ out.cols, c.2.length = df.nrows - 1) ∧
      ∃ X y, (predict b st df).1 = ⟨some (b.fit X y, X)⟩ ∧
        prepared.get "TEMP" = some y ∧
        out.get "PREDICTED_TEMP" = some (.float (b.predictFn (b.fit X y) X)) ∧
        X.hasCol "TEMP" = false ∧ X.hasCol "DATE" = false ∧
        (∃ c, prepared.get "LOCATION" = some c ∧
          X.get "LOCATION" = some c.toCategory ∧
          c.toCategory.isCategorical = true) ∧
        (∀ n, n ∉ (["TEMP", "DATE", "LOCATION"] : List String) →
          X.get n = prepared.get n) ∧
        X.colNames = prepared.colNames.filter
          (fun n => !((["TEMP", "DATE"] : List String).contains n)) ∧
        (∀ c ∈ X.cols, c.2.length = df.nrows - 1) := by
  obtain ⟨prepared, X0, y, hprep, hdrop, hy, hsel, hst⟩ := predict_ok_elim h
  set X : DataFrame := categorizeLocation X0 with hXset
  obtain ⟨hdropAll, hX0⟩ := dropColumns_ok_elim hdrop
  obtain ⟨hselAll, hout⟩ := selectCols_ok_elim hsel
  -- shape of the prepared frame
  obtain ⟨t, temps, ht, hnum, h0, hh, hpair⟩ := prepare_data_ok_elim hprep
  have hpeq : prepared = (df.dropFirstRow).setCol "TEMP_FFT"
      (.realv (((dft temps).drop 1).map Complex.abs)) := congrArg Prod.fst hpair
  have hlen := temps_length_eq_nrows ht hnum hrect
  have hA : ∀ c ∈ prepared.cols, c.2.length = df.nrows - 1 := by
    rw [hpeq]
    exact prepare_data_out_allLen hrect hlen
  -- presence of the four carried columns in `prepared`
  have hpT : prepared.hasCol "TEMP" = true := hasCol_of_get hy
  have hpD : prepared.hasCol "DATE" = true := hdropAll "DATE" (by simp)
  obtain ⟨d, hd⟩ : ∃ d, prepared.get "DATE" = some d := by
    simpa [DataFrame.hasCol, Option.isSome_iff_exists] using hpD
  have hpH : prepared.hasCol "HOUR_OF_DAY" = true := by
    rw [hpeq, prepared_hasCol_ne (by decide)]
    exact hh
  obtain ⟨hr, hhr⟩ : ∃ hr, prepared.get "HOUR_OF_DAY" = some hr := by
    simpa [DataFrame.hasCol, Option.isSome_iff_exists] using hpH
  have hpL : prepared.hasCol "LOCATION" = true := by
    have := hselAll "LOCATION" (by simp [outputColumns])
    rwa [hasCol_setCol_ne _ _ (by decide)] at this
  obtain ⟨c, hc⟩ : ∃ c, prepared.get "LOCATION" = some c := by
    simpa [DataFrame.hasCol, Option.isSome_iff_exists] using hpL
  -- the feature matrix
  have hX0L : X0.get "LOCATION" = some c := by
    rw [hX0]
    show lookupCol _ _ = some c
    rw [lookupCol_filter_not_removed (by decide)]
    exact hc
  have hXdef : X = X0.setCol "LOCATION" c.toCategory := by
    rw [hXset]
    unfold categorizeLocation
    rw [hX0L]
  have hXL : X.get "LOCATION" = some c.toCategory := by
    rw [hXdef]
    exact get_setCol_self _ _ _
  have hXT : X.hasCol "TEMP" = false := by
    rw [hXdef, hasCol_setCol_ne _ _ (by decide), hX0]
    show (lookupCol _ _).isSome = false
    rw [lookupCol_filter_removed (by decide)]
    rfl
  have hXD : X.hasCol "DATE" = false := by
    rw [hXdef, hasCol_setCol_ne _ _ (by decide), hX0]
    show (lookupCol _ _).isSome = false
    rw [lookupCol_filter_removed (by decide)]
    rfl
  have hXother : ∀ n, n ∉ (["TEMP", "DATE", "LOCATION"] : List String) →
      X.get n = prepared.get n := by
    intro n hn
    simp only [List.mem_cons, List.mem_singleton, not_or] at hn
    obtain ⟨hn1, hn2, hn3, -⟩ := hn
    rw [hXdef, get_setCol_ne _ _ hn3, hX0]
    show lookupCol _ _ = _
    rw [lookupCol_filter_not_removed (by simp [hn1, hn2])]
    rfl
  have hXnames : X.colNames = prepared.colNames.filter
      (fun n => !((["TEMP", "DATE"] : List String).contains n)) := by
    rw [hXdef]
    show (setColList X0.cols "LOCATION" c.toCategory).map Prod.fst = _
    rw [map_fst_setColList hX0L]
    rw [hX0]
    exact map_fst_filter_names _ _
  have hXlen : ∀ c' ∈ X.cols, c'.2.length = df.nrows - 1 := by
    intro c' hc'
    rw [hXdef] at hc'
    rcases mem_setColList hc' with hcc | hcc
    · subst hcc
      simp only [ColData.length_toCategory]
      exact hA _ (lookupCol_eq_some_mem hc)
    · rw [hX0] at hcc
      exact hA _ (List.mem_filter.mp hcc).1
  have hXrows : X.nrows = df.nrows - 1 := by
    refine nrows_eq_of_allLen ?_ hXlen
    rw [hXdef]
    exact setColList_ne_nil _ _ _
  -- the output frame
  have hP2P : (prepared.setCol "PREDICTED_TEMP"
      (.float (b.predictFn (b.fit X y) X))).get "PREDICTED_TEMP" =
      some (.float (b.predictFn (b.fit X y) X)) := get_setCol_self _ _ _
  have hP2D : (prepared.setCol "PREDICTED_TEMP"
      (.float (b.predictFn (b.fit X y) X))).get "DATE" = some d := by
    rw [get_setCol_ne _ _ (by decide)]; exact hd
  have hP2L : (prepared.setCol "PREDICTED_TEMP"
      (.float (b.predictFn (b.fit X y) X))).get "LOCATION" = some c := by
    rw [get_setCol_ne _ _ (by decide)]; exact hc
  have hP2H : (prepared.setCol "PREDICTED_TEMP"
      (.float (b.predictFn (b.fit X y) X))).get "HOUR_OF_DAY" = some hr := by
    rw [get_setCol_ne _ _ (by decide)]; exact hhr
  have hP2T : (prepared.setCol "PREDICTED_TEMP"
      (.float (b.predictFn (b.fit X y) X))).get "TEMP" = some y := by
    rw [get_setCol_ne _ _ (by decide)]; exact hy
  have houtcols : out.cols = [("DATE", d), ("LOCATION", c), ("HOUR_OF_DAY", hr),
      ("TEMP", y), ("PREDICTED_TEMP", .float (b.predictFn (b.fit X y) X))] := by
    rw [hout]
    simp [outputColumns, hP2D, hP2L, hP2H, hP2T, hP2P]
  refine ⟨?_, prepared, hprep, ?_, ?_, ?_, ?_, ?_, X, y, hst, hy, ?_, hXT, hXD,
    ⟨c, hc, hXL, ColData.isCategorical_toCategory c⟩, hXother, hXnames, hXlen⟩
  · rw [DataFrame.colNames, houtcols]
    rfl
  · show out.get "DATE" = _
    rw [DataFrame.get, houtcols, hd]
    rfl
  · rw [DataFrame.get, houtcols, hc]
    rfl
  · rw [DataFrame.get, houtcols, hhr]
    rfl
  · rw [DataFrame.get, houtcols, hy]
    rfl
  · intro c' hc'
    rw [houtcols] at hc'
    simp only [List.mem_cons, List.mem_singleton] at hc'
    rcases hc' with rfl | rfl | rfl | rfl | rfl | hfalse
    · exact hA _ (lookupCol_eq_some_mem hd)
    · exact hA _ (lookupCol_eq_some_mem hc)
    · exact hA _ (lookupCol_eq_some_mem hhr)
    · exact hA _ (lookupCol_eq_some_mem hy)
    · show (ColData.float (b.predictFn (b.fit X y) X)).length = df.nrows - 1
      show (b.predictFn (b.fit X y) X).length = df.nrows - 1
      rw [hb, hXrows]
    · simp at hfalse
  · rw [DataFrame.get, houtcols]
    show some (ColData.float (b.predictFn (b.fit X y) X)) = _
    rfl

/-- Witness for claim C9: a concrete successful `predict` run. -/
theorem predict_output_and_state_witness :
    ∃ out, (predict unitBackend (⟨none⟩ : WPState Unit) obsNY).2 = .ok out ∧
      out.colNames = outputColumns ∧
      ∃ X y, (predict unitBackend (⟨none⟩ : WPState Unit) obsNY).1 =
          ⟨some (unitBackend.fit X y, X)⟩ ∧
        X.hasCol "TEMP" = false ∧ X.hasCol "DATE" = false ∧
        (∀ c ∈ out.cols, c.2.length = obsNY.nrows - 1) := by
  obtain ⟨out, hout⟩ : ∃ out,
      (predict unitBackend (⟨none⟩ : WPState Unit) obsNY).2 = .ok out := ⟨_, rfl⟩
  obtain ⟨h1, -, -, -, -, -, -, h7, X, y, h8, -, -, h9, h10, -, -, -, -⟩ :=
    predict_output_and_state (fun m Xf => List.length_replicate _ _)
      (by decide) hout
  exact ⟨out, hout, h1, X, y, h8, h9, h10, h7⟩

/-- Witness for claim C10 at concrete frames lacking `DATE` and `LOCATION`
respectively. -/
theorem predict_undocumented_preconditions_witness :
    predict unitBackend (⟨none⟩ : WPState Unit) obsNoDate =
      (⟨none⟩, .error (.keyError ["DATE"])) ∧
    (predict unitBackend (⟨none⟩ : WPState Unit) obsNoLocation).2 =
      .error (.keyError ["LOCATION"]) :=
  ⟨(@predict_undocumented_preconditions Unit obsNoDate (.float [20, 22])
      (List.map (fun q => (Rat.cast q : ℝ)) [20, 22]) unitBackend ⟨none⟩
      rfl rfl rfl (by simp)).1 rfl,
   (@predict_undocumented_preconditions Unit obsNoLocation (.float [20, 22])
      (List.map (fun q => (Rat.cast q : ℝ)) [20, 22]) unitBackend ⟨none⟩
      rfl rfl rfl (by simp)).2 rfl rfl⟩

end WeatherShap
